import Mathlib

/-!
Verification of the forex trading loop (`forex_bot.py`).

A shallow embedding of the single-file trading bot. Prices, balances and
profits are modelled as exact rationals (`ℚ`). Values that the Python/pandas
code leaves as IEEE `NaN` (rolling windows shorter than the period, the
`0/0` relative-strength case) are modelled as `Option ℚ` with `none` for
NaN; Python comparisons against NaN are `False`, which the lifted
comparison operators below reproduce.  The broker API (`MetaTrader5`) is an
external collaborator: each loop iteration reads one `Env` snapshot of its
answers, with `none` standing for a failed fetch (Python `None`).
-/

namespace ForexBot

/-! ## Configuration constants (source lines 6-19) -/

def sl_pips : ℚ := 5
def tp_pips : ℚ := 10
def sma_period : ℕ := 50
def rsi_period : ℕ := 14
def risk_percent : ℚ := 1
def magic_number : ℕ := 123456
def bars : ℕ := 100
def daily_max_loss : ℚ := 50
def daily_loss_reset_hour : ℕ := 0

/-- MT5 constant `DEAL_TYPE_BUY` (= 0). -/
def DEAL_TYPE_BUY : ℕ := 0
/-- MT5 constant `DEAL_TYPE_SELL` (= 1). -/
def DEAL_TYPE_SELL : ℕ := 1
/-- MT5 constant `ORDER_TYPE_BUY` (= 0). -/
def ORDER_TYPE_BUY : ℕ := 0
/-- MT5 constant `ORDER_TYPE_SELL` (= 1). -/
def ORDER_TYPE_SELL : ℕ := 1

/-! ## Python rounding and lot sizing (source lines 96-100) -/

/-- Python `round` to an integer: round-half-to-even (banker's rounding),
which is the semantics of Python 3 `round` on exact values. -/
def rndHalfEven (q : ℚ) : ℤ :=
  if q - ⌊q⌋ < 1/2 then ⌊q⌋
  else if q - ⌊q⌋ > 1/2 then ⌊q⌋ + 1
  else if ⌊q⌋ % 2 = 0 then ⌊q⌋ else ⌊q⌋ + 1

/-- Python `round(x, 2)`: round-half-to-even at the second decimal. -/
def round2 (q : ℚ) : ℚ := (rndHalfEven (q * 100) : ℚ) / 100

/-- Lot sizing (source lines 96-100):
`risk_money = balance * (risk_percent / 100)`,
`lot = round(risk_money / (sl_pips * pip_value_per_lot), 2)`,
then floored to 0.01.  Parametrised exactly over the variables the
source expression reads. -/
def computeLot (balance riskPct slPips pipValuePerLot : ℚ) : ℚ :=
  let risk_money := balance * (riskPct / 100)
  let lot := round2 (risk_money / (slPips * pipValuePerLot))
  if lot < 1/100 then 1/100 else lot

/-! ## Indicators (source lines 67-82)

`closes` is the list of close prices, time-ascending, indexed from 0 as in
the pandas DataFrame.  `rolling(n).mean()` is `NaN` (here `none`) until a
full window of `n` defined entries exists. -/

/-- The pandas series `delta.where(delta > 0, 0)` at index `i`:
the positive part of `close[i] - close[i-1]`, and 0 at index 0
(the `NaN` first difference fails the `> 0` test, so `where` installs 0). -/
def gainAt (closes : List ℚ) (i : ℕ) : ℚ :=
  if i = 0 then 0
  else
    let d := closes.getD i 0 - closes.getD (i - 1) 0
    if 0 < d then d else 0

/-- The pandas series `-delta.where(delta < 0, 0)` at index `i`:
the magnitude of the negative part of the first difference, 0 at index 0. -/
def lossAt (closes : List ℚ) (i : ℕ) : ℚ :=
  if i = 0 then 0
  else
    let d := closes.getD i 0 - closes.getD (i - 1) 0
    if d < 0 then -d else 0

/-- Series `rolling(rsi_period).mean()` of the gain series at index `i`:
defined once `i + 1 ≥ rsi_period` (the gain series itself has no NaN). -/
def gainAvgAt (closes : List ℚ) (i : ℕ) : Option ℚ :=
  if rsi_period ≤ i + 1 then
    some (((List.range rsi_period).map (fun k => gainAt closes (i - k))).sum / rsi_period)
  else none

/-- Series `rolling(rsi_period).mean()` of the loss series at index `i`. -/
def lossAvgAt (closes : List ℚ) (i : ℕ) : Option ℚ :=
  if rsi_period ≤ i + 1 then
    some (((List.range rsi_period).map (fun k => lossAt closes (i - k))).sum / rsi_period)
  else none

/-- Column `df['sma']` at index `i`: mean of the trailing `sma_period` closes,
`NaN` (`none`) before a full window exists. -/
def smaAt (closes : List ℚ) (i : ℕ) : Option ℚ :=
  if sma_period ≤ i + 1 then
    some (((closes.drop (i + 1 - sma_period)).take sma_period).sum / sma_period)
  else none

/-- Column `df['rsi'] = 100 - (100 / (1 + rs))` with `rs = gain / loss`
(source lines 76-77), under IEEE semantics for the nonnegative averages:
`loss > 0` gives a finite value; `loss = 0 < gain` gives `rs = +inf` and
so RSI `= 100 - 100/inf = 100` exactly; `gain = loss = 0` gives `0/0 = NaN`
which propagates (`none`). A window-incomplete average is NaN and also
propagates. -/
def rsiAt (closes : List ℚ) (i : ℕ) : Option ℚ :=
  match gainAvgAt closes i, lossAvgAt closes i with
  | some g, some l =>
      if l = 0 then (if g = 0 then none else some 100)
      else some (100 - 100 / (1 + g / l))
  | _, _ => none

/-! ## Entry conditions (source lines 102-107)

Python comparisons with a NaN operand are `False`; the lifted comparisons
on `Option ℚ` return `false` on `none`. -/

/-- Comparison `o < y` where `o` may be NaN (`none`): a NaN comparison is `false`. -/
def oltB (o : Option ℚ) (y : ℚ) : Bool :=
  match o with
  | none => false
  | some s => decide (s < y)

/-- Comparison `o > y` where `o` may be NaN (`none`): a NaN comparison is `false`. -/
def ogtB (o : Option ℚ) (y : ℚ) : Bool :=
  match o with
  | none => false
  | some s => decide (y < s)

/-- Condition `should_buy(): close_price > sma and rsi < 30` (source lines 103-104). -/
def should_buy (close_price : ℚ) (sma rsi : Option ℚ) : Bool :=
  oltB sma close_price && oltB rsi 30

/-- Condition `should_sell(): close_price < sma and rsi > 70` (source lines 106-107). -/
def should_sell (close_price : ℚ) (sma rsi : Option ℚ) : Bool :=
  ogtB sma close_price && ogtB rsi 70

/-! ## Closed deals and daily-loss recomputation (source lines 149-157) -/

/-- A closed-deal record from `history_deals_get`: strategy tag, deal type
and realized profit (negative = loss). -/
structure Deal where
  magic : ℕ
  dtype : ℕ
  profit : ℚ
  deriving DecidableEq, Repr

/-- The contribution of one deal in the recomputation loop (source line
156-157).  Python parses the guard as
`(deal.magic == magic_number and deal.type == DEAL_TYPE_SELL) or
(deal.type == DEAL_TYPE_BUY)`, because `and` binds tighter than `or`. -/
def dealLossContrib (d : Deal) : ℚ :=
  if (d.magic = magic_number ∧ d.dtype = DEAL_TYPE_SELL) ∨ d.dtype = DEAL_TYPE_BUY then
    if d.profit < 0 then -d.profit else 0
  else 0

/-- Accumulator `daily_realized_loss` recomputed from scratch over the deals closed
since local midnight (source lines 153-157); an empty history yields 0. -/
def recomputeDailyLoss (deals : List Deal) : ℚ :=
  (deals.map dealLossContrib).sum

/-- Modelled from the spec (section 4.5 / testable property): the intended
accumulator, "sum of negative-profit legs of deals tagged with the strategy
identifier"; deals with a different strategy tag contribute nothing. -/
def specDailyLoss (deals : List Deal) : ℚ :=
  (deals.map (fun d =>
    if d.magic = magic_number then
      if d.profit < 0 then -d.profit else 0
    else 0)).sum

/-! ## Order construction and the loop body (source lines 39-162) -/

/-- The trade request fields that the decision logic determines
(source lines 110-124 and 133-144). -/
structure OrderRequest where
  otype : ℕ
  volume : ℚ
  price : ℚ
  sl : ℚ
  tp : ℚ
  magic : ℕ
  deriving DecidableEq, Repr

/-- The signal dispatch (source lines 133-147): evaluate `should_buy`
first, then `should_sell`, else no order.  `point` is
`symbol_info.point`, `ask`/`bid` come from the tick. -/
def decideSignalOrder (close_price : ℚ) (sma rsi : Option ℚ)
    (lot ask bid point : ℚ) : Option OrderRequest :=
  if should_buy close_price sma rsi then
    some ⟨ORDER_TYPE_BUY, lot, ask, ask - sl_pips * 10 * point,
          ask + tp_pips * 10 * point, magic_number⟩
  else if should_sell close_price sma rsi then
    some ⟨ORDER_TYPE_SELL, lot, bid, bid + sl_pips * 10 * point,
          bid - tp_pips * 10 * point, magic_number⟩
  else none

/-- Fields of `symbol_info` the loop reads (source lines 91-93). -/
structure SymInfo where
  point : ℚ
  trade_tick_size : ℚ
  trade_tick_value : ℚ
  deriving DecidableEq, Repr

/-- Fields of `symbol_info_tick` the loop reads (source lines 135, 141). -/
structure Tick where
  bid : ℚ
  ask : ℚ
  deriving DecidableEq, Repr

/-- The mutable loop state (source lines 22-23): the daily-loss
accumulator and the last reset date (a calendar-day ordinal). -/
structure BotState where
  daily_realized_loss : ℚ
  last_reset_date : ℤ
  deriving DecidableEq, Repr

/-- One iteration's snapshot of the outside world: the calendar date and
hour of `datetime.now()`, and each broker answer (`none` = failed fetch /
Python `None`).  `deals` is the `history_deals_get` result for
[local midnight, now]; a failed or empty fetch is the empty list (both
skip the summation loop). -/
structure Env where
  today : ℤ
  hour : ℕ
  account : Option ℚ
  rates : Option (List ℚ)
  symbolInfo : Option SymInfo
  tick : Option Tick
  deals : List Deal
  deriving DecidableEq, Repr

/-- The guard of the daily reset (source line 43):
`date.today() != last_reset_date and now.hour >= daily_loss_reset_hour`. -/
def resetFires (st : BotState) (env : Env) : Prop :=
  env.today ≠ st.last_reset_date ∧ daily_loss_reset_hour ≤ env.hour

instance (st : BotState) (env : Env) : Decidable (resetFires st env) := by
  unfold resetFires; infer_instance

/-- The daily reset branch (source lines 43-46): zero the accumulator and
advance `last_reset_date` when the guard holds, otherwise leave the state
alone. -/
def applyReset (st : BotState) (env : Env) : BotState :=
  if resetFires st env then ⟨0, env.today⟩ else st

/-- How one loop iteration ends.
`sleepSkip`: the loss-limit gate fired — `time.sleep` then `continue`
(source lines 49-52). `sleepNormal o`: the full body ran, submitting order
`o` if `o = some _`, then recomputed the accumulator and slept (source
lines 54-162). `fatal`: a fetch failed — `break` out of the loop, reaching
`mt5.shutdown()` (source lines 56-58, 63-65, 87-89). -/
inductive IterResult where
  | sleepSkip : IterResult
  | sleepNormal : Option OrderRequest → IterResult
  | fatal : IterResult
  deriving DecidableEq, Repr

/-- One iteration of the trading loop (source lines 39-162), returning the
state for the next iteration and how the iteration ended. -/
def loopIter (st : BotState) (env : Env) : BotState × IterResult :=
  let st := applyReset st env
  if daily_max_loss ≤ st.daily_realized_loss then
    (st, .sleepSkip)
  else
    match env.account with
    | none => (st, .fatal)
    | some balance =>
      match env.rates with
      | none => (st, .fatal)
      | some closes =>
        let i := closes.length - 1
        let close_price := closes.getD i 0
        let sma := smaAt closes i
        let rsi := rsiAt closes i
        match env.symbolInfo, env.tick with
        | some si, some tk =>
          let pip_value_per_lot := si.trade_tick_value / si.trade_tick_size
          let lot := computeLot balance risk_percent sl_pips pip_value_per_lot
          let order := decideSignalOrder close_price sma rsi lot tk.ask tk.bid si.point
          (⟨recomputeDailyLoss env.deals, st.last_reset_date⟩, .sleepNormal order)
        | _, _ => (st, .fatal)

/-- The `while True` loop run over a finite trace of environment
snapshots: a `fatal` iteration breaks out (remaining snapshots unused,
the process shuts down), any other iteration sleeps and continues. -/
def runBot (st : BotState) : List Env → BotState
  | [] => st
  | e :: es =>
    match loopIter st e with
    | (st', .fatal) => st'
    | (st', _) => runBot st' es

/-! ## Concrete fixtures used in witnesses and counterexamples -/

/-- A state whose accumulator (60) already exceeds `daily_max_loss`. -/
def st1 : BotState := ⟨60, 0⟩

/-- A fresh state with a zero accumulator. -/
def st0 : BotState := ⟨0, 0⟩

/-- Symbol metadata: point 0.0001, tick size 0.1, tick value 1
(so `pip_value_per_lot = 10`). -/
def si1 : SymInfo := ⟨1/10000, 1/10, 1⟩

/-- A tick with bid 1.1049, ask 1.1051. -/
def tk1 : Tick := ⟨11049/10000, 11051/10000⟩

/-- One losing closed deal tagged with this strategy's magic (SELL leg,
profit −10). -/
def deals1 : List Deal := [⟨123456, 1, -10⟩]

/-- An environment whose deal history would recompute to 10, seen by a
state already over the loss limit (same date, so no reset). -/
def envC1 : Env :=
  ⟨0, 5, some 10000, some (List.replicate 14 1), some si1, some tk1, deals1⟩

/-! ## Shared helper lemmas -/

/-- Signals `should_buy` and `should_sell` can never both hold on one snapshot:
they demand `sma < close` and `close < sma` respectively. -/
lemma not_buy_and_sell (c : ℚ) (sma rsi : Option ℚ) :
    (should_buy c sma rsi && should_sell c sma rsi) = false := by
  rcases sma with _ | s
  · simp [should_buy, oltB]
  · by_cases h : s < c
    · have h' : ¬ c < s := not_lt.mpr h.le
      simp [should_buy, should_sell, oltB, ogtB, h, h']
    · simp [should_buy, oltB, h]

/-- The loss-limit gate path of the loop body. -/
lemma loopIter_gate (st : BotState) (env : Env)
    (h : daily_max_loss ≤ (applyReset st env).daily_realized_loss) :
    loopIter st env = (applyReset st env, .sleepSkip) := by
  unfold loopIter
  simp [h]

/-! ## C1 -/

/-- C1, as stated, is false: on an iteration where the gate fires
(accumulator 60 ≥ max 50), the `continue` at source line 52 also skips the
recomputation at lines 149-157, so the accumulator is NOT recomputed from
deal history (it stays 60 although the history sums to 10). -/
theorem C1_counterexample :
    daily_max_loss ≤ (applyReset st1 envC1).daily_realized_loss ∧
    recomputeDailyLoss envC1.deals = 10 ∧
    (loopIter st1 envC1).1.daily_realized_loss = 60 := by
  have hreset : applyReset st1 envC1 = st1 := by
    simp [applyReset, resetFires, st1, envC1]
  have hgate : daily_max_loss ≤ (applyReset st1 envC1).daily_realized_loss := by
    rw [hreset]; norm_num [st1, daily_max_loss]
  refine ⟨hgate, ?_, ?_⟩
  · norm_num [envC1, deals1, recomputeDailyLoss, dealLossContrib,
      magic_number, DEAL_TYPE_SELL, DEAL_TYPE_BUY]
  · rw [loopIter_gate st1 envC1 hgate, hreset]
    rfl

/-- C1 (amended): when the accumulator after the reset check is at least
`daily_max_loss`, the iteration skips the entire decision/order path (no
order is submitted), leaves the accumulator at its gate-time value WITHOUT
recomputing it from deal history, and sleeps before the next iteration
(`sleepSkip` is the `time.sleep`-then-`continue` exit). -/
theorem C1_gate_skips_without_recompute (st : BotState) (env : Env)
    (h : daily_max_loss ≤ (applyReset st env).daily_realized_loss) :
    loopIter st env = (applyReset st env, .sleepSkip) :=
  loopIter_gate st env h

/-- Witness for C1 at the concrete over-limit state. -/
theorem C1_witness :
    loopIter st1 envC1 = (applyReset st1 envC1, .sleepSkip) :=
  C1_gate_skips_without_recompute st1 envC1 (by
    simp [applyReset, resetFires, st1, envC1]
    norm_num [daily_max_loss])

/-! ## C2 -/

/-- C2 exposes a code bug: source line 156 parses as
`(deal.magic == magic_number and deal.type == SELL) or (deal.type == BUY)`,
so a losing BUY-type deal tagged with a FOREIGN magic number (999999) is
counted into the accumulator (10), while the spec's accumulator — deals
tagged with this strategy's identifier only — gives 0. -/
theorem C2_magic_filter_divergence :
    recomputeDailyLoss [⟨999999, DEAL_TYPE_BUY, -10⟩] = 10 ∧
    specDailyLoss [⟨999999, DEAL_TYPE_BUY, -10⟩] = 0 := by
  norm_num [recomputeDailyLoss, specDailyLoss, dealLossContrib,
    magic_number, DEAL_TYPE_SELL, DEAL_TYPE_BUY]

/-! ## C5 -/

/-- C5: for positive inputs the lot equals
`round(balance*(risk_percent/100) / (stop_loss_pips*pip_value_per_lot), 2)`
when that rounded value is at least 0.01, and 0.01 otherwise; and the
spec's scenario balance=10000, risk=1%, sl=5 pips, pip value 10 gives
lot = 2.00. -/
theorem C5_lot_formula :
    (∀ balance riskPct slPips pv : ℚ,
      0 < balance → 0 < riskPct → 0 < slPips → 0 < pv →
      (1/100 ≤ round2 (balance * (riskPct / 100) / (slPips * pv)) →
        computeLot balance riskPct slPips pv =
          round2 (balance * (riskPct / 100) / (slPips * pv))) ∧
      (round2 (balance * (riskPct / 100) / (slPips * pv)) < 1/100 →
        computeLot balance riskPct slPips pv = 1/100)) ∧
    computeLot 10000 1 5 10 = 2 := by
  constructor
  · intro balance riskPct slPips pv _ _ _ _
    constructor
    · intro hge
      unfold computeLot
      simp only []
      rw [if_neg (not_lt.mpr hge)]
    · intro hlt
      unfold computeLot
      simp only []
      rw [if_pos hlt]
  · have h2 : (10000 : ℚ) * (1 / 100) / (5 * 10) = 2 := by norm_num
    have hr : round2 2 = 2 := by
      norm_num [round2, rndHalfEven]
    unfold computeLot
    simp only [h2, hr]
    norm_num

/-- Witness for C5 at the spec's scenario. -/
theorem C5_witness :
    computeLot 10000 1 5 10 = round2 (10000 * ((1:ℚ) / 100) / (5 * 10)) :=
  (C5_lot_formula.1 10000 1 5 10 (by norm_num) (by norm_num) (by norm_num)
    (by norm_num)).1 (by norm_num [round2, rndHalfEven])

/-- Every exit of an iteration leaves `last_reset_date` as the reset check
set it: only the reset branch ever writes that field. -/
lemma loopIter_last (st : BotState) (env : Env) :
    (loopIter st env).1.last_reset_date = (applyReset st env).last_reset_date := by
  obtain ⟨td, hr, acc, rts, si, tk, ds⟩ := env
  unfold loopIter
  rcases acc with _ | b <;> rcases rts with _ | closes <;>
    rcases si with _ | s <;> rcases tk with _ | t <;>
    dsimp only <;> split_ifs <;> rfl

/-! ## C3 -/

/-- The gain series is pointwise nonnegative. -/
lemma gainAt_nonneg (closes : List ℚ) (i : ℕ) : 0 ≤ gainAt closes i := by
  unfold gainAt
  dsimp only
  split_ifs with h1 h2
  · exact le_refl 0
  · exact le_of_lt h2
  · exact le_refl 0

/-- The loss series is pointwise nonnegative. -/
lemma lossAt_nonneg (closes : List ℚ) (i : ℕ) : 0 ≤ lossAt closes i := by
  unfold lossAt
  dsimp only
  split_ifs with h1 h2
  · exact le_refl 0
  · linarith
  · exact le_refl 0

/-- A defined rolling gain average is nonnegative. -/
lemma gainAvg_nonneg {closes : List ℚ} {i : ℕ} {g : ℚ}
    (h : gainAvgAt closes i = some g) : 0 ≤ g := by
  unfold gainAvgAt at h
  split_ifs at h
  · injection h with h
    subst h
    apply div_nonneg _ (by norm_num)
    apply List.sum_nonneg
    intro x hx
    obtain ⟨k, _, rfl⟩ := List.mem_map.mp hx
    exact gainAt_nonneg closes (i - k)

/-- A defined rolling loss average is nonnegative. -/
lemma lossAvg_nonneg {closes : List ℚ} {i : ℕ} {l : ℚ}
    (h : lossAvgAt closes i = some l) : 0 ≤ l := by
  unfold lossAvgAt at h
  split_ifs at h
  · injection h with h
    subst h
    apply div_nonneg _ (by norm_num)
    apply List.sum_nonneg
    intro x hx
    obtain ⟨k, _, rfl⟩ := List.mem_map.mp hx
    exact lossAt_nonneg closes (i - k)

/-- C3, as stated, is false: on a flat 14-bar window the trailing loss
average is 0, yet the RSI of the latest bar (index 13) is NOT 100 — the
`0/0` relative strength makes it NaN (`none`), which is not in [0, 100]
and does reach the decision logic. -/
theorem C3_counterexample :
    lossAvgAt [1,1,1,1,1,1,1,1,1,1,1,1,1,(1:ℚ)] 13 = some 0 ∧
    rsiAt [1,1,1,1,1,1,1,1,1,1,1,1,1,(1:ℚ)] 13 = none := by
  constructor
  · norm_num [lossAvgAt, lossAt, rsi_period, List.range_succ]
  · norm_num [rsiAt, gainAvgAt, lossAvgAt, gainAt, lossAt, rsi_period,
      List.range_succ]

/-- C3 (amended): whenever the RSI of a bar is DEFINED it lies in
[0, 100]; and when the trailing loss average is zero while the gain
average is nonzero, RSI is exactly 100.  (When both averages are zero the
RSI is NaN, not 100 — see the counterexample.) -/
theorem C3_rsi_defined_bounds :
    (∀ closes i r, rsiAt closes i = some r → 0 ≤ r ∧ r ≤ 100) ∧
    (∀ closes i g, gainAvgAt closes i = some g → lossAvgAt closes i = some 0 →
      g ≠ 0 → rsiAt closes i = some 100) := by
  constructor
  · intro closes i r h
    unfold rsiAt at h
    cases hg : gainAvgAt closes i with
    | none => rw [hg] at h; cases h
    | some g =>
      cases hl : lossAvgAt closes i with
      | none => rw [hg, hl] at h; cases h
      | some l =>
        rw [hg, hl] at h
        dsimp only at h
        by_cases hl0 : l = 0
        · rw [if_pos hl0] at h
          by_cases hg0 : g = 0
          · rw [if_pos hg0] at h; cases h
          · rw [if_neg hg0] at h
            injection h with h
            subst h
            norm_num
        · rw [if_neg hl0] at h
          have hgnn := gainAvg_nonneg hg
          have hlnn := lossAvg_nonneg hl
          have hlpos : 0 < l := lt_of_le_of_ne hlnn (Ne.symm hl0)
          have hrs : 0 ≤ g / l := div_nonneg hgnn hlpos.le
          have h1 : (1:ℚ) ≤ 1 + g / l := by linarith
          have hdivpos : 0 < 100 / (1 + g / l) := by positivity
          have hdivle : 100 / (1 + g / l) ≤ 100 := div_le_self (by norm_num) h1
          injection h with h
          subst h
          constructor <;> linarith
  · intro closes i g hg hl hg0
    unfold rsiAt
    rw [hg, hl]
    simp [hg0]

/-- Witness for C3 at a 14-bar window with one upward move: RSI is
defined, equals 100, and the bound holds there. -/
theorem C3_witness :
    rsiAt [0,0,0,0,0,0,0,0,0,0,0,0,0,(1:ℚ)] 13 = some 100 ∧
    (0 : ℚ) ≤ 100 ∧ (100 : ℚ) ≤ 100 := by
  have h2 := C3_rsi_defined_bounds.2 [0,0,0,0,0,0,0,0,0,0,0,0,0,(1:ℚ)] 13
    (1/14)
    (by norm_num [gainAvgAt, gainAt, rsi_period, List.range_succ])
    (by norm_num [lossAvgAt, lossAt, rsi_period, List.range_succ])
    (by norm_num)
  exact ⟨h2, C3_rsi_defined_bounds.1 _ 13 100 h2⟩

/-! ## C9 -/

/-- C9: for any single snapshot of (close, SMA, RSI) the BUY condition
(close > SMA and RSI < 30) and the SELL condition (close < SMA and
RSI > 70) are mutually exclusive. -/
theorem C9_signals_mutually_exclusive (c : ℚ) (sma rsi : Option ℚ) :
    (should_buy c sma rsi && should_sell c sma rsi) = false :=
  not_buy_and_sell c sma rsi

/-! ## C4 -/

/-- An environment on the day after `st`'s last reset, past the reset
hour, with working fetches and no signal. -/
def envW : Env := ⟨1, 5, some 10000, some [], some si1, some tk1, []⟩

/-- A later iteration's environment on the SAME day as `envW`. -/
def envW2 : Env := ⟨1, 6, none, none, none, none, []⟩

/-- C4: the daily reset fires exactly when the calendar date differs from
`last_reset_date` and the hour has reached the reset hour — it then zeroes
the accumulator and advances `last_reset_date` — it leaves the state
untouched otherwise, and after an iteration in which it fired, no further
iteration of the same calendar day can fire it again. -/
theorem C4_daily_reset_once :
    (∀ st env, resetFires st env → applyReset st env = ⟨0, env.today⟩) ∧
    (∀ st env, ¬ resetFires st env → applyReset st env = st) ∧
    (∀ st env env2, resetFires st env → env2.today = env.today →
      ¬ resetFires (loopIter st env).1 env2) := by
  refine ⟨?_, ?_, ?_⟩
  · intro st env h
    simp [applyReset, h]
  · intro st env h
    simp [applyReset, h]
  · intro st env env2 h h2
    have hl : (loopIter st env).1.last_reset_date = env.today := by
      rw [loopIter_last]
      simp [applyReset, h]
    intro hcon
    exact hcon.1 (by rw [h2, hl])

/-- Witness for C4: the date rolls from day 0 to day 1, the reset fires
once, and a later iteration of day 1 cannot fire it again. -/
theorem C4_witness :
    applyReset ⟨30, 0⟩ envW = ⟨0, 1⟩ ∧
    ¬ resetFires (loopIter ⟨30, 0⟩ envW).1 envW2 := by
  constructor
  · exact C4_daily_reset_once.1 ⟨30, 0⟩ envW (by decide)
  · exact C4_daily_reset_once.2.2 ⟨30, 0⟩ envW envW2 (by decide) rfl

/-! ## C6 -/

/-- C6: a BUY signal is executed at the ask with stop-loss
`entry − sl_pips×10×point` and take-profit `entry + tp_pips×10×point`;
a SELL signal is executed at the bid with stop-loss
`entry + sl_pips×10×point` and take-profit `entry − tp_pips×10×point`. -/
theorem C6_order_construction
    (close : ℚ) (sma rsi : Option ℚ) (lot ask bid point : ℚ) :
    (should_buy close sma rsi = true →
      decideSignalOrder close sma rsi lot ask bid point =
        some ⟨ORDER_TYPE_BUY, lot, ask, ask - sl_pips * 10 * point,
              ask + tp_pips * 10 * point, magic_number⟩) ∧
    (should_sell close sma rsi = true →
      decideSignalOrder close sma rsi lot ask bid point =
        some ⟨ORDER_TYPE_SELL, lot, bid, bid + sl_pips * 10 * point,
              bid - tp_pips * 10 * point, magic_number⟩) := by
  constructor
  · intro h
    simp [decideSignalOrder, h]
  · intro h
    have hb : should_buy close sma rsi = false := by
      have h2 := not_buy_and_sell close sma rsi
      rw [h] at h2
      simpa using h2
    simp [decideSignalOrder, hb, h]

/-- Witness for C6 at the spec's scenario close=1.1050, SMA=1.1020,
RSI=25 (a BUY signal) with the fixture tick and point. -/
theorem C6_witness :
    decideSignalOrder (1105/1000) (some (1102/1000)) (some 25) 2
      tk1.ask tk1.bid si1.point =
      some ⟨ORDER_TYPE_BUY, 2, tk1.ask, tk1.ask - sl_pips * 10 * si1.point,
            tk1.ask + tp_pips * 10 * si1.point, magic_number⟩ :=
  (C6_order_construction (1105/1000) (some (1102/1000)) (some 25) 2
    tk1.ask tk1.bid si1.point).1 (by norm_num [should_buy, oltB])

/-! ## C7 and C10: shared lemmas about the full loop body -/

/-- Unfolding `runBot` one step on a nonempty trace. -/
lemma runBot_cons (st : BotState) (e : Env) (es : List Env) :
    runBot st (e :: es) =
      match loopIter st e with
      | (st', .fatal) => st'
      | (st', _) => runBot st' es := rfl

/-- If the gate lets the iteration through, every fetch succeeds and
neither signal fires, the iteration ends normally with no order. -/
lemma loopIter_noSignal (st : BotState) (env : Env) (b : ℚ) (closes : List ℚ)
    (si : SymInfo) (tk : Tick)
    (hgate : (applyReset st env).daily_realized_loss < daily_max_loss)
    (hacc : env.account = some b) (hrts : env.rates = some closes)
    (hsi : env.symbolInfo = some si) (htk : env.tick = some tk)
    (hbuy : should_buy (closes.getD (closes.length - 1) 0)
      (smaAt closes (closes.length - 1)) (rsiAt closes (closes.length - 1)) = false)
    (hsell : should_sell (closes.getD (closes.length - 1) 0)
      (smaAt closes (closes.length - 1)) (rsiAt closes (closes.length - 1)) = false) :
    (loopIter st env).2 = .sleepNormal none := by
  obtain ⟨td, hr, acc, rts, esi, etk, ds⟩ := env
  dsimp only at hacc hrts hsi htk hgate
  subst hacc hrts hsi htk
  rw [List.getD_eq_getElem?_getD] at hbuy hsell
  unfold loopIter
  dsimp only
  rw [if_neg (not_le.mpr hgate)]
  simp [decideSignalOrder, hbuy, hsell]

/-- NaN indicators fail both Python comparisons, so no signal fires. -/
lemma signals_false_of_none (c : ℚ) (sma rsi : Option ℚ)
    (h : sma = none ∨ rsi = none) :
    should_buy c sma rsi = false ∧ should_sell c sma rsi = false := by
  rcases h with rfl | rfl
  · simp [should_buy, should_sell, oltB, ogtB]
  · simp [should_buy, should_sell, oltB, ogtB]

/-! ## C7 -/

/-- C7: a failed fetch of account info, market data, or symbol/tick info
ends the iteration fatally — `runBot` then stops, leaving the remaining
trace unconsumed (no retry, straight to shutdown) — while a
loss-limit-reached iteration or a no-signal iteration is non-fatal and the
run continues with the next snapshot. -/
theorem C7_fatal_vs_nonfatal :
    (∀ st env, (applyReset st env).daily_realized_loss < daily_max_loss →
      (env.account = none ∨ env.rates = none ∨ env.symbolInfo = none ∨
        env.tick = none) →
      (loopIter st env).2 = .fatal) ∧
    (∀ st env, daily_max_loss ≤ (applyReset st env).daily_realized_loss →
      (loopIter st env).2 = .sleepSkip) ∧
    (∀ st env b closes si tk,
      (applyReset st env).daily_realized_loss < daily_max_loss →
      env.account = some b → env.rates = some closes →
      env.symbolInfo = some si → env.tick = some tk →
      should_buy (closes.getD (closes.length - 1) 0)
        (smaAt closes (closes.length - 1))
        (rsiAt closes (closes.length - 1)) = false →
      should_sell (closes.getD (closes.length - 1) 0)
        (smaAt closes (closes.length - 1))
        (rsiAt closes (closes.length - 1)) = false →
      (loopIter st env).2 = .sleepNormal none) ∧
    (∀ st e es, (loopIter st e).2 = .fatal →
      runBot st (e :: es) = (loopIter st e).1) ∧
    (∀ st e es, (loopIter st e).2 ≠ .fatal →
      runBot st (e :: es) = runBot (loopIter st e).1 es) := by
  refine ⟨?_, ?_, ?_, ?_, ?_⟩
  · intro st env hgate hnone
    obtain ⟨td, hr, acc, rts, esi, etk, ds⟩ := env
    dsimp only at hgate hnone
    unfold loopIter
    dsimp only
    rw [if_neg (not_le.mpr hgate)]
    rcases acc with _ | b
    · rfl
    · rcases rts with _ | closes
      · rfl
      · rcases esi with _ | s
        · rfl
        · rcases etk with _ | t
          · rfl
          · simp at hnone
  · intro st env h
    rw [loopIter_gate st env h]
  · intro st env b closes si tk hgate hacc hrts hsi htk hbuy hsell
    exact loopIter_noSignal st env b closes si tk hgate hacc hrts hsi htk
      hbuy hsell
  · intro st e es h
    rcases hres : loopIter st e with ⟨st2, r⟩
    rw [hres] at h
    dsimp only at h
    subst h
    rw [runBot_cons, hres]
  · intro st e es h
    rcases hres : loopIter st e with ⟨st2, r⟩
    rw [runBot_cons, hres]
    cases r
    · rfl
    · rfl
    · rw [hres] at h
      exact absurd rfl h

/-- An environment whose market-data fetch fails. -/
def envFail : Env := ⟨0, 5, some 10000, none, some si1, some tk1, []⟩

/-- Witness for C7: with a failed market-data fetch the iteration is
fatal, and the run stops there even though another snapshot follows. -/
theorem C7_witness :
    (loopIter st0 envFail).2 = .fatal ∧
    runBot st0 [envFail, envC1] = (loopIter st0 envFail).1 := by
  have hfatal : (loopIter st0 envFail).2 = .fatal := by
    apply C7_fatal_vs_nonfatal.1 st0 envFail
    · simp [applyReset, resetFires, st0, envFail]
      norm_num [daily_max_loss]
    · exact Or.inr (Or.inl rfl)
  exact ⟨hfatal, C7_fatal_vs_nonfatal.2.2.2.1 st0 envFail [envC1] hfatal⟩

/-! ## C10 -/

/-- C10: whenever the latest bar's SMA or RSI is NaN (window shorter than
the period, or the flat-window `0/0` relative strength), neither signal
fires, so an iteration that reaches the decision step submits no order. -/
theorem C10_nan_indicators_no_order (st : BotState) (env : Env) (b : ℚ)
    (closes : List ℚ) (si : SymInfo) (tk : Tick)
    (hgate : (applyReset st env).daily_realized_loss < daily_max_loss)
    (hacc : env.account = some b) (hrts : env.rates = some closes)
    (hsi : env.symbolInfo = some si) (htk : env.tick = some tk)
    (hnan : smaAt closes (closes.length - 1) = none ∨
      rsiAt closes (closes.length - 1) = none) :
    (loopIter st env).2 = .sleepNormal none := by
  obtain ⟨hbuy, hsell⟩ :=
    signals_false_of_none (closes.getD (closes.length - 1) 0)
      (smaAt closes (closes.length - 1)) (rsiAt closes (closes.length - 1)) hnan
  exact loopIter_noSignal st env b closes si tk hgate hacc hrts hsi htk
    hbuy hsell

/-- An environment with only 10 bars of history: the 50-bar SMA of the
latest bar is NaN. -/
def envShort : Env :=
  ⟨0, 5, some 10000, some (List.replicate 10 1), some si1, some tk1, []⟩

/-- Witness for C10 on a 10-bar window (SMA undefined): the iteration
completes normally with no order. -/
theorem C10_witness :
    (loopIter st0 envShort).2 = .sleepNormal none := by
  apply C10_nan_indicators_no_order st0 envShort 10000 (List.replicate 10 1)
    si1 tk1
  · simp [applyReset, resetFires, st0, envShort]
    norm_num [daily_max_loss]
  · rfl
  · rfl
  · rfl
  · rfl
  · exact Or.inl (by simp [smaAt, sma_period])

/-! ## C8 -/

/-- Banker's rounding never goes below the floor. -/
lemma rndHalfEven_ge_floor (q : ℚ) : ⌊q⌋ ≤ rndHalfEven q := by
  unfold rndHalfEven
  split_ifs <;> omega

/-- Banker's rounding never exceeds the floor plus one. -/
lemma rndHalfEven_le_floor_add_one (q : ℚ) : rndHalfEven q ≤ ⌊q⌋ + 1 := by
  unfold rndHalfEven
  split_ifs <;> omega

/-- Banker's rounding is monotone. -/
lemma rndHalfEven_mono {q r : ℚ} (h : q ≤ r) :
    rndHalfEven q ≤ rndHalfEven r := by
  have hf : ⌊q⌋ ≤ ⌊r⌋ := Int.floor_mono h
  rcases eq_or_lt_of_le hf with heq | hlt
  · unfold rndHalfEven
    rw [← heq]
    split_ifs <;> first | omega | (exfalso; linarith)
  · calc rndHalfEven q ≤ ⌊q⌋ + 1 := rndHalfEven_le_floor_add_one q
      _ ≤ ⌊r⌋ := by omega
      _ ≤ rndHalfEven r := rndHalfEven_ge_floor r

/-- Python `round(x, 2)` is monotone. -/
lemma round2_mono {q r : ℚ} (h : q ≤ r) : round2 q ≤ round2 r := by
  unfold round2
  have h1 : rndHalfEven (q * 100) ≤ rndHalfEven (r * 100) :=
    rndHalfEven_mono (by linarith)
  have h2 : ((rndHalfEven (q * 100) : ℤ) : ℚ) ≤ ((rndHalfEven (r * 100) : ℤ) : ℚ) := by
    exact_mod_cast h1
  linarith

/-- Unfolding `computeLot` with its let-bindings expanded. -/
lemma computeLot_eq (b ρ s pv : ℚ) :
    computeLot b ρ s pv =
      if round2 (b * (ρ / 100) / (s * pv)) < 1/100 then 1/100
      else round2 (b * (ρ / 100) / (s * pv)) := rfl

/-- The 0.01 floor is a monotone clamp. -/
lemma clampMin_mono {a b : ℚ} (h : a ≤ b) :
    (if a < 1/100 then (1:ℚ)/100 else a) ≤
      (if b < 1/100 then (1:ℚ)/100 else b) := by
  split_ifs <;> linarith

/-- C8: the lot size is non-increasing in the stop-loss distance,
non-decreasing in the balance, and never below the 0.01 floor — in
particular when the risk money is 0. -/
theorem C8_lot_monotone_and_min :
    (∀ b ρ pv s1 s2 : ℚ, 0 ≤ b → 0 ≤ ρ → 0 < pv → 0 < s1 → s1 ≤ s2 →
      computeLot b ρ s2 pv ≤ computeLot b ρ s1 pv) ∧
    (∀ b1 b2 ρ s pv : ℚ, 0 ≤ ρ → 0 < s → 0 < pv → b1 ≤ b2 →
      computeLot b1 ρ s pv ≤ computeLot b2 ρ s pv) ∧
    (∀ b ρ s pv : ℚ, 0 < s → 0 < pv → 1/100 ≤ computeLot b ρ s pv) := by
  refine ⟨?_, ?_, ?_⟩
  · intro b ρ pv s1 s2 hb hρ hpv hs1 hs12
    rw [computeLot_eq, computeLot_eq]
    apply clampMin_mono
    apply round2_mono
    apply div_le_div_of_nonneg_left
    · exact mul_nonneg hb (by positivity)
    · positivity
    · exact mul_le_mul_of_nonneg_right hs12 hpv.le
  · intro b1 b2 ρ s pv hρ hs hpv hb
    rw [computeLot_eq, computeLot_eq]
    apply clampMin_mono
    apply round2_mono
    apply div_le_div_of_nonneg_right _ (by positivity)
    exact mul_le_mul_of_nonneg_right hb (by positivity)
  · intro b ρ s pv hs hpv
    rw [computeLot_eq]
    split_ifs with h
    · exact le_refl _
    · linarith

/-- Witness for C8 at concrete inputs, including the zero-risk-money case
balance = 0 where the lot still sits at the 0.01 floor. -/
theorem C8_witness :
    computeLot 10000 1 10 10 ≤ computeLot 10000 1 5 10 ∧
    computeLot 0 1 5 10 ≤ computeLot 10000 1 5 10 ∧
    (1:ℚ)/100 ≤ computeLot 0 1 5 10 :=
  ⟨C8_lot_monotone_and_min.1 10000 1 10 5 10 (by norm_num) (by norm_num)
      (by norm_num) (by norm_num) (by norm_num),
   C8_lot_monotone_and_min.2.1 0 10000 1 5 10 (by norm_num) (by norm_num)
      (by norm_num) (by norm_num),
   C8_lot_monotone_and_min.2.2 0 1 5 10 (by norm_num) (by norm_num)⟩

end ForexBot
